import Mathlib

/-!
Verification development for the mlLib timeline compiler and windowed sample
extractor (src/tdfTools.py).  Python functions are shallowly embedded as Lean
definitions: numeric lab values become rationals, Python dictionaries become
functions into `Option`, strings become lists of characters where character
level behaviour matters, and fallible code returns an explicit outcome type.
Definitions are transcribed from the source; definitions whose doc comment
says so are written from the specification text instead, for comparison
against the source transcription.
-/

/-- Outcome of running a piece of Python code: a normal return value, process
termination via sys.exit, or an uncaught exception (tagged with the exception
class name). -/
inductive PyOutcome (α : Type) where
  | ok : α → PyOutcome α
  | sysExit : PyOutcome α
  | raised : String → PyOutcome α
deriving DecidableEq

/-! ## Future-event categorization (claims C1, C4)

`TDFFileReader.ComputeOutcomeCategory`, src/tdfTools.py lines 4269-4333.
The constants TDF_FUTURE_EVENT_* (lines 661-674) are inlined as the numerals
they are bound to. -/

/-- Transcription of `ComputeOutcomeCategory(self, currentDate, outcomeDate)`. -/
def ComputeOutcomeCategory (currentDate outcomeDate : Int) : Nat :=
  if outcomeDate < 0 then 13
  else
    let daysUntilOutcome := outcomeDate - currentDate
    if daysUntilOutcome ≤ 0 then 0
    else if daysUntilOutcome ≤ 1 then 1
    else if daysUntilOutcome ≤ 3 then 2
    else if daysUntilOutcome ≤ 7 then 3
    else if daysUntilOutcome ≤ 14 then 4
    else if daysUntilOutcome ≤ 30 then 5
    else if daysUntilOutcome ≤ 90 then 6
    else if daysUntilOutcome ≤ 180 then 7
    else if daysUntilOutcome ≤ 365 then 8
    else if daysUntilOutcome ≤ 730 then 9
    else if daysUntilOutcome ≤ 1095 then 10
    else if daysUntilOutcome ≤ 1825 then 11
    else if daysUntilOutcome ≤ 3650 then 12
    else 13

/-- The specification's threshold table: pairs of (upper bound in days until
occurrence, ordinal category), in the order the spec lists them. -/
def futureEventThresholds : List (Int × Nat) :=
  [(0, 0), (1, 1), (3, 2), (7, 3), (14, 4), (30, 5), (90, 6), (180, 7),
   (365, 8), (730, 9), (1095, 10), (1825, 11), (3650, 12)]

/-- First category of the table whose threshold is at least `d`; 13 when `d`
exceeds every threshold. -/
def categoryFromThresholdTable (d : Int) : List (Int × Nat) → Nat
  | [] => 13
  | (th, cat) :: rest => if d ≤ th then cat else categoryFromThresholdTable d rest

/-- The categorization function as the spec words it: negative target day
(no known occurrence) gives 13, otherwise the threshold table is applied to
the gap `target_day - current_day`. -/
def specOutcomeCategory (currentDay targetDay : Int) : Nat :=
  if targetDay < 0 then 13
  else categoryFromThresholdTable (targetDay - currentDay) futureEventThresholds

/-! ## Reverse-pass baseline trackers (claim C2)

`TDFFileReader.ProcessDataNodeInReverseImpl`, src/tdfTools.py.  The scalar
trackers `self.BaselineCr` / `self.BaselineMELD` become a state record; one
step's update of each tracker is transcribed as a function from the state and
the step's current value (already read out of the snapshot; the value is
taken as absent when the snapshot has no entry, which the loop encodes by
leaving the current value at -1). -/

structure ReverseBaselineState where
  BaselineCr : Rat
  BaselineMELD : Rat
deriving DecidableEq

/-- Transcription of the baseline-Cr update, lines 4057-4064: a known
positive Cr replaces the tracker when none is known yet or it is smaller. -/
def updateBaselineCr (st : ReverseBaselineState) (currentCr : Rat) : Rat :=
  if currentCr > 0 then
    if st.BaselineCr < 0 ∨ currentCr < st.BaselineCr then currentCr
    else st.BaselineCr
  else st.BaselineCr

/-- Transcription of the baseline-MELD update, lines 4159-4166, exactly as
written in the source: the comparison on the replacement condition reads
`currentMELD < self.BaselineCr` (the creatinine tracker). -/
def updateBaselineMELD (st : ReverseBaselineState) (currentMELD : Rat) : Rat :=
  if currentMELD > 0 then
    if st.BaselineMELD < 0 ∨ currentMELD < st.BaselineCr then currentMELD
    else st.BaselineMELD
  else st.BaselineMELD

/-- The baseline-MELD update as the spec and the claim state it (and as the
source's own comment block above lines 4159-4166 describes): replace exactly
when no baseline is known yet or the current MELD is below the tracked
baseline MELD. -/
def updateBaselineMELD_specRule (st : ReverseBaselineState) (currentMELD : Rat) : Rat :=
  if currentMELD > 0 then
    if st.BaselineMELD < 0 ∨ currentMELD < st.BaselineMELD then currentMELD
    else st.BaselineMELD
  else st.BaselineMELD

/-! ## Measurement validation and clipping (claim C5)

`TDFFileReader.ProcessDataNodeForwardImpl`, src/tdfTools.py lines 3613-3665:
the per-assignment handling of one `name=value` pair from a lab/vital node,
after the value string has been decoded to the float `labValueFloat` and the
registered descriptor bounds `labMinVal`/`labMaxVal` have been fetched.
The code first rules out "ridiculous" values, then clips with two separate
comparisons before storing. -/

/-- Transcription of lines 3651-3663: returns the value stored into the
snapshot, or `none` when the decoded value is discarded. -/
def validateLabValue (labMinVal labMaxVal labValueFloat : Rat) : Option Rat :=
  if labValueFloat < 0 ∨ labValueFloat ≥ 2 * labMaxVal then none
  else
    let v1 := if labValueFloat < labMinVal then labMinVal else labValueFloat
    let v2 := if v1 > labMaxVal then labMaxVal else v1
    some v2

/-- The validation rule as claim C5 words it: discarded exactly when the
value is more than 2x the declared maximum; every other decoded value is
clipped into the declared bounds and stored. -/
def specValidateLabValue_claim (labMinVal labMaxVal v : Rat) : Option Rat :=
  if v > 2 * labMaxVal then none
  else some (min labMaxVal (max labMinVal v))

/-- The validation rule with the correction the source forces: discarded
exactly when the value is negative or at least 2x the declared maximum;
every other decoded value is clipped into the declared bounds and stored. -/
def specValidateLabValue_amended (labMinVal labMaxVal v : Rat) : Option Rat :=
  if v < 0 ∨ v ≥ 2 * labMaxVal then none
  else some (min labMaxVal (max labMinVal v))

/-! ## Derived-value blocks: anion gap and urine anion gap (claim C6)

`TDFFileReader.ProcessDataNodeForwardImpl`, src/tdfTools.py lines 3706-3737.
The live snapshot `self.LatestLabsFromCurrentOrEarlierTimes` is a function
from variable name to optional value; a failing dictionary lookup inside the
`try` block leaves the remaining locals unbound and sets `foundValidLab` to
False.  The local `serumNa` stays bound after the serum anion-gap block and
is what the urine anion-gap formula reads; when the serum sodium lookup
failed, `serumNa` is unbound there and referencing it raises NameError. -/

/-- Transcription of the AnionGap block (lines 3706-3719).  Returns the
updated snapshot together with the binding of the local `serumNa` after the
block: bound exactly when the lookup of `Na` succeeded. -/
def computeAnionGapBlock (snap : String → Option Rat) :
    (String → Option Rat) × Option Rat :=
  match snap ("Na") with
  | none => (snap, none)
  | some serumNa =>
    match snap ("Cl"), snap ("CO2") with
    | some serumCl, some serumCO2 =>
      (if serumNa ≥ 0 ∧ serumCl ≥ 0 ∧ serumCO2 ≥ 0 then
        Function.update snap ("AnionGap") (some (serumNa - (serumCl + serumCO2)))
      else snap, some serumNa)
    | _, _ => (snap, some serumNa)

/-- Transcription of the UrineAnionGap block (lines 3721-3737) given the
`serumNa` binding left by the AnionGap block.  The stored result is
`(serumNa + urineK) - urineCl` as written in the source; when the branch is
entered with `serumNa` unbound the block raises NameError. -/
def computeUrineAnionGapBlock (snap : String → Option Rat) (serumNa : Option Rat) :
    PyOutcome (String → Option Rat) :=
  match snap ("UNa"), snap ("UK"), snap ("UCl") with
  | some urineNa, some urineK, some urineCl =>
    if urineNa ≥ 0 ∧ urineK ≥ 0 ∧ urineCl ≥ 0 then
      match serumNa with
      | some sNa =>
        PyOutcome.ok (Function.update snap ("UrineAnionGap") (some ((sNa + urineK) - urineCl)))
      | none => PyOutcome.raised ("NameError")
    else PyOutcome.ok snap
  | _, _, _ => PyOutcome.ok snap

/-- The two blocks in source order: the serum anion-gap block runs first and
leaves the `serumNa` local that the urine block then reads. -/
def derivedUrineAnionGap (snap : String → Option Rat) :
    PyOutcome (String → Option Rat) :=
  match computeAnionGapBlock snap with
  | (snap1, serumNa) => computeUrineAnionGapBlock snap1 serumNa

/-! ## Forward-pass node routing (claim C7)

`TDFFileReader.CompilePatientTimelineImpl`, src/tdfTools.py lines 3204-3355.
Each XML child node of a patient has an element name (`nodeType`), a `T`
attribute carrying its timestamp string and a `C` attribute carrying its
class.  The loop admits a node into the timeline-building body only through
the guard at lines 3212-3224; every other node type hits the `else` branch,
which advances to the next node and continues. -/

structure TdfNode where
  nodeType : String
  tAttr : List Char
  dataClass : String
deriving DecidableEq

/-- Transcription of the guard at line 3212: only `e` (event) and `d` (data)
nodes proceed past the top of the loop body; all others are skipped by the
`else: ... continue` at lines 3222-3224. -/
def forwardPassAdmitsNode (nodeType : String) : Bool :=
  nodeType == "e" || nodeType == "d"

/-- The nodes that reach the category dispatch at lines 3330-3343 (where
`ProcessOutcomeNodeForwardImpl` would be called for an `oc` node): exactly
the nodes admitted by the guard, since no other statement between the guard
and the dispatch leaves the loop iteration. -/
def nodesReachingForwardDispatch (nodes : List TdfNode) : List TdfNode :=
  nodes.filter (fun n => forwardPassAdmitsNode n.nodeType)

/-- Transcription of the timestamp-equivalence test at lines 3226-3252 that
decides whether an admitted node mutates the current TimelineStep instead of
appending a new one.  `latest*` are the day/hour/minute of the current step,
`lab*` those of the node being placed. -/
def reuseLatestData (nodeType dataClass : String)
    (latestDays latestHours latestMins labDays labHours labMins : Int) : Bool :=
  if latestDays == labDays && latestHours == labHours && latestMins == labMins then
    true
  else if nodeType == "oc" && latestDays == labDays && latestHours ≥ labHours then
    true
  else if nodeType == "d" && dataClass == "d" && latestDays == labDays
      && latestHours ≥ labHours then
    true
  else if nodeType == "e" && latestDays == labDays && latestHours ≥ labHours then
    true
  else false

/-- Transcription of `ProcessOutcomeNodeForwardImpl` (lines 3904-3936): the
named outcome booleans of the node are written into the snapshot when their
attribute equals `T`.  `getAttr` models `outcomesNode.getAttribute`, which
returns the empty string for an absent attribute. -/
def ProcessOutcomeNodeForwardImpl (getAttr : String → String)
    (snap : String → Option Rat) : String → Option Rat :=
  let s1 := if getAttr ("DiedInpt") == "T" then
    Function.update snap ("DiedInpt") (some 1) else snap
  let s2 := if getAttr ("DiedIn12Mos") == "T" then
    Function.update s1 ("DiedIn12Mos") (some 1) else s1
  let s3 := if getAttr ("ReadmitIn30Days") == "T" then
    Function.update s2 ("ReadmitIn30Days") (some 1) else s2
  let s4 := if getAttr ("PreexistingMyeloma") == "T" then
    Function.update s3 ("PreexistingMyeloma") (some 1) else s3
  let s5 := if getAttr ("DiagMyeloma") == "T" then
    Function.update s4 ("DiagMyeloma") (some 1) else s4
  s5

/-! ## Timestamp encoding and parsing (claims C10, C9)

`TDF_MakeTimeStamp` (src/tdfTools.py lines 943-947) and `TDF_ParseTimeStamp`
(lines 1018-1030).  Strings are modelled as lists of characters.  The
embedding covers the non-negative field values that the claims quantify
over; the decimal rendering of a non-negative integer and Python's `int`
restricted to digit strings are spelled out below. -/

/-- The character of one decimal digit. -/
def decDigitChar (d : Nat) : Char := Char.ofNat (48 + d)

/-- Decimal rendering of a non-negative integer, most significant digit
first (what `str`/`format` produce for a non-negative int). -/
def natDecChars (n : Nat) : List Char :=
  if n = 0 then [decDigitChar 0] else (Nat.digits 10 n).reverse.map decDigitChar

/-- The format specification `{0:0>2d}` applied to a non-negative integer:
the decimal rendering left-padded with the zero character to width 2. -/
def pad2 (n : Nat) : List Char :=
  List.replicate (2 - (natDecChars n).length) (decDigitChar 0) ++ natDecChars n

/-- Transcription of `TDF_MakeTimeStamp(days, hours, minutes)`: the three
padded fields joined by colons. -/
def TDF_MakeTimeStamp (days hours minutes : Nat) : List Char :=
  pad2 days ++ ':' :: pad2 hours ++ ':' :: pad2 minutes

/-- `str.split(sep)` for a one-character separator: split a character list
at every occurrence of `sep`. -/
def splitOnChar (sep : Char) : List Char → List (List Char)
  | [] => [[]]
  | c :: rest =>
    match splitOnChar sep rest with
    | [] => [[]]
    | w :: ws => if c = sep then [] :: w :: ws else (c :: w) :: ws

/-- `str.split(':')` as used by the timestamp parser. -/
def splitOnColon (l : List Char) : List (List Char) := splitOnChar ':' l

/-- Numeric value of a digit character. -/
def decCharVal (c : Char) : Nat := c.toNat - 48

/-- Value of a digit string, most significant digit first. -/
def pyIntDigitsVal (l : List Char) : Nat :=
  l.foldl (fun a c => 10 * a + decCharVal c) 0

/-- Python `int` on the strings arising here: defined on non-empty digit
strings, a ValueError (`none`) otherwise. -/
def pyIntOfChars (l : List Char) : Option Nat :=
  if l ≠ [] ∧ l.all (fun c => c.isDigit) then some (pyIntDigitsVal l) else none

/-- Transcription of `TDF_ParseTimeStamp(timeCode)`: the empty string prints
an error and calls `sys.exit(0)`; otherwise the code splits on colons and
converts the first three words with `int`, where a missing word raises
IndexError and a non-numeric word raises ValueError, both uncaught. -/
def TDF_ParseTimeStamp (timeCode : List Char) : PyOutcome (Nat × Nat × Nat) :=
  if timeCode = [] then PyOutcome.sysExit
  else
    match splitOnColon timeCode with
    | [] => PyOutcome.raised ("IndexError")
    | dWord :: rest =>
      match pyIntOfChars dWord with
      | none => PyOutcome.raised ("ValueError")
      | some days =>
        match rest with
        | [] => PyOutcome.raised ("IndexError")
        | hWord :: rest2 =>
          match pyIntOfChars hWord with
          | none => PyOutcome.raised ("ValueError")
          | some hours =>
            match rest2 with
            | [] => PyOutcome.raised ("IndexError")
            | mWord :: _ =>
              match pyIntOfChars mWord with
              | none => PyOutcome.raised ("ValueError")
              | some minutes => PyOutcome.ok (days, hours, minutes)

/-- The timestamp-handling skeleton of the forward pass of
`CompilePatientTimelineImpl` (lines 3204-3229): each `e` or `d` node has its
`T` attribute parsed by `TDF_ParseTimeStamp` with no exception handler, so a
`sys.exit` or an uncaught exception there ends the whole compilation; any
other node type is skipped.  The normal result collects the parsed
timestamps in order. -/
def compileTimelineTimestamps : List TdfNode → PyOutcome (List (Nat × Nat × Nat))
  | [] => PyOutcome.ok []
  | n :: rest =>
    if forwardPassAdmitsNode n.nodeType then
      match TDF_ParseTimeStamp n.tAttr with
      | PyOutcome.ok t =>
        match compileTimelineTimestamps rest with
        | PyOutcome.ok ts => PyOutcome.ok (t :: ts)
        | PyOutcome.sysExit => PyOutcome.sysExit
        | PyOutcome.raised s => PyOutcome.raised s
      | PyOutcome.sysExit => PyOutcome.sysExit
      | PyOutcome.raised s => PyOutcome.raised s
    else compileTimelineTimestamps rest

/-! ## Variable-name resolution for the sample extractor (claim C8)

`TDFFileReader.ParseSingleVariable` (src/tdfTools.py lines 2206-2231),
`ParseVariables` (lines 2239-2284) and the opening of
`GetDataFromCurrentWindow` (lines 2583-2600).  The process-wide registry
`g_LabValueInfo` is passed as a function from name to optional descriptor. -/

/-- The fields of one `g_LabValueInfo` descriptor used by the claims. -/
structure LabInfo where
  minVal : Rat
  maxVal : Rat
  FuturePredictedValue : String
  numFutureDaysNeeded : Int
deriving DecidableEq

/-- Python `int` on an optionally minus-signed digit string. -/
def pyIntSigned (l : List Char) : Option Int :=
  match l with
  | '-' :: rest => (pyIntOfChars rest).map (fun n => -(n : Int))
  | _ => (pyIntOfChars l).map (fun n => (n : Int))

/-- The characters before the first occurrence of `sep`
(`str.split(sep, 1)[0]`). -/
def takeUntilChar (sep : Char) : List Char → List Char
  | [] => []
  | c :: rest => if c = sep then [] else c :: takeUntilChar sep rest

/-- The characters after the first occurrence of `sep`
(`str.split(sep, 1)[1]` when `sep` occurs). -/
def dropThroughChar (sep : Char) : List Char → List Char
  | [] => []
  | c :: rest => if c = sep then rest else dropThroughChar sep rest

/-- Transcription of `ParseSingleVariable(self, valueName)`: strip a bracketed
day offset if present (`int` of a malformed offset raises ValueError), then
look the stem up in the registry.  A missing stem returns the triple
`(None, None, 0)`. -/
def ParseSingleVariable (registry : String → Option LabInfo) (valueName : String) :
    PyOutcome (Option LabInfo × Option String × Int) :=
  if valueName.toList.contains '[' then
    let nameStem := String.mk (takeUntilChar '[' valueName.toList)
    let offsetStr := takeUntilChar ']' (dropThroughChar '[' valueName.toList)
    match pyIntSigned offsetStr with
    | none => PyOutcome.raised ("ValueError")
    | some valueOffset =>
      match registry nameStem with
      | none => PyOutcome.ok (none, none, 0)
      | some labInfo => PyOutcome.ok (some labInfo, some nameStem, valueOffset)
  else
    match registry valueName with
    | none => PyOutcome.ok (none, none, 0)
    | some labInfo => PyOutcome.ok (some labInfo, some valueName, 0)

/-- The string concatenation inside the failure `print` of `ParseVariables`
(line 2243): concatenating `None` into a string raises TypeError. -/
def pyStrConcat (s : String) (t : Option String) : PyOutcome String :=
  match t with
  | some u => PyOutcome.ok (s ++ u)
  | none => PyOutcome.raised ("TypeError")

/-- Offset-splitting loop of `ParseVariables` over the input names (lines
2246-2268): each bracketed suffix is converted with `int`. -/
def splitInputOffsets : List String → PyOutcome (List (String × Int))
  | [] => PyOutcome.ok []
  | name :: rest =>
    if name.toList.contains '[' then
      let stem := String.mk (takeUntilChar '[' name.toList)
      let offsetStr := takeUntilChar ']' (dropThroughChar '[' name.toList)
      match pyIntSigned offsetStr with
      | none => PyOutcome.raised ("ValueError")
      | some off =>
        match splitInputOffsets rest with
        | PyOutcome.ok tl => PyOutcome.ok ((stem, off) :: tl)
        | e => e
    else
      match splitInputOffsets rest with
      | PyOutcome.ok tl => PyOutcome.ok ((name, 0) :: tl)
      | e => e

/-- Transcription of `ParseVariables(self, inputValueNameList, ...,
resultValueName)`.  When the result descriptor is missing the code reaches
`print("resultValueStem(" + resultValueStem + ") not in g_LabValueInfo")`
with `resultValueStem = None` before its `return None, ...`, so the call
raises TypeError; a normal return carries the split input names with their
offsets and the result descriptor, stem and offset. -/
def ParseVariables (registry : String → Option LabInfo)
    (inputValueNameList : List String) (resultValueName : String) :
    PyOutcome (Option (List (String × Int) × LabInfo × String × Int)) :=
  match ParseSingleVariable registry resultValueName with
  | PyOutcome.ok (none, resultValueStem, _) =>
    (match pyStrConcat ("resultValueStem(") resultValueStem with
     | PyOutcome.ok _ => PyOutcome.ok none
     | PyOutcome.sysExit => PyOutcome.sysExit
     | PyOutcome.raised s => PyOutcome.raised s)
  | PyOutcome.ok (some resultLabInfo, resultValueStem, resultValueOffset) =>
    (match splitInputOffsets inputValueNameList with
     | PyOutcome.ok ins =>
       PyOutcome.ok (some (ins, resultLabInfo, resultValueStem.getD (""), resultValueOffset))
     | PyOutcome.sysExit => PyOutcome.sysExit
     | PyOutcome.raised s => PyOutcome.raised s)
  | PyOutcome.sysExit => PyOutcome.sysExit
  | PyOutcome.raised s => PyOutcome.raised s

/-- How `GetDataFromCurrentWindow` starts: either it returns the zero-sample
result `(0, None, None)` at line 2593, or it proceeds to the data fetch with
the parsed variables. -/
inductive FetchStart where
  | zeroSamples : FetchStart
  | proceeds : List (String × Int) → LabInfo → String → Int → FetchStart
deriving DecidableEq

/-- Transcription of lines 2583-2593 of `GetDataFromCurrentWindow`: split the
input format string on commas, call `ParseVariables`, and return the
zero-sample result when it returns `None`; an exception inside
`ParseVariables` propagates to the caller uncaught. -/
def GetDataFromCurrentWindow_start (registry : String → Option LabInfo)
    (inputValueFormatStr resultValueName : String) : PyOutcome FetchStart :=
  match ParseVariables registry
      ((splitOnChar ',' inputValueFormatStr.toList).map (fun w => String.mk w))
      resultValueName with
  | PyOutcome.ok none => PyOutcome.ok FetchStart.zeroSamples
  | PyOutcome.ok (some (ins, info, stem, off)) =>
    PyOutcome.ok (FetchStart.proceeds ins info stem off)
  | PyOutcome.sysExit => PyOutcome.sysExit
  | PyOutcome.raised s => PyOutcome.raised s

/-! ## Look-ahead clipping of the fetch window (claim C3)

`TDFFileReader.GetBoundsForDataFetch`, src/tdfTools.py lines 2289-2345, and
the early return of `GetDataFromCurrentWindow` at lines 2597-2600.  A
compiled timeline step keeps its day number and the set of variable names
present in its snapshot; values are irrelevant to the bounds computation.
The Python sentinel pair `(-1, -1)` is modelled as `none`. -/

structure TimelineEntry where
  TimeDays : Int
  dataNames : List String
deriving DecidableEq

/-- Day number stored at index `i` of the compiled timeline. -/
def dayAt (tl : List TimelineEntry) (i : Nat) : Int :=
  match tl[i]? with
  | some e => e.TimeDays
  | none => 0

/-- Whether the snapshot at index `i` carries the named variable. -/
def carriesAt (tl : List TimelineEntry) (name : String) (i : Nat) : Bool :=
  match tl[i]? with
  | some e => name ∈ e.dataNames
  | none => false

/-- The first loop of `GetBoundsForDataFetch` (lines 2303-2317): walk from
index `i` down to `firstID` looking for a step whose snapshot carries the
future signal; return its day, or -1 when the walk exhausts.  The source
starts the walk at the last index of the whole timeline. -/
def findFutureDayNum (tl : List TimelineEntry) (name : String) (firstID : Nat) :
    Nat → Int
  | 0 =>
    if 0 < firstID then -1
    else if carriesAt tl name 0 then dayAt tl 0 else -1
  | i + 1 =>
    if i + 1 < firstID then -1
    else if carriesAt tl name (i + 1) then dayAt tl (i + 1)
    else findFutureDayNum tl name firstID i

/-- The second loop of `GetBoundsForDataFetch` (lines 2319-2330): walk
`lastTimelineID` downward until the step's day is at least
`numFutureDaysNeeded` days before `futureDayNum`; `none` when the walk
crosses below `firstID` (the source then returns the sentinel). -/
def clipLastID (tl : List TimelineEntry) (futureDayNum numFutureDaysNeeded : Int)
    (firstID : Nat) : Nat → Option Nat
  | 0 =>
    if 0 < firstID then none
    else if futureDayNum ≥ dayAt tl 0 + numFutureDaysNeeded then some 0 else none
  | i + 1 =>
    if i + 1 < firstID then none
    else if futureDayNum ≥ dayAt tl (i + 1) + numFutureDaysNeeded then some (i + 1)
    else clipLastID tl futureDayNum numFutureDaysNeeded firstID i

/-- Transcription of `GetBoundsForDataFetch(self, resultLabInfo)` for the
window `[firstID, lastID]`: when the result variable predicts a future
signal, find the day of the latest step carrying that signal and clip the
last usable step so it is at least `numFutureDaysNeeded` days earlier;
`none` models the sentinel `(-1, -1)`. -/
def GetBoundsForDataFetch (tl : List TimelineEntry) (firstID lastID : Nat)
    (resultLabInfo : LabInfo) : Option (Nat × Nat) :=
  if resultLabInfo.FuturePredictedValue = "" then some (firstID, lastID)
  else if findFutureDayNum tl resultLabInfo.FuturePredictedValue firstID
      (tl.length - 1) < 0 then none
  else
    match clipLastID tl
        (findFutureDayNum tl resultLabInfo.FuturePredictedValue firstID (tl.length - 1))
        resultLabInfo.numFutureDaysNeeded firstID lastID with
    | none => none
    | some l => some (firstID, l)

/-- The day of the latest step in the whole timeline carrying the named
signal (the value the first loop of the source computes when the window
starts at index 0), -1 when no step carries it. -/
def latestCarryDay (tl : List TimelineEntry) (name : String) : Int :=
  findFutureDayNum tl name 0 (tl.length - 1)

/-- Number of sample slots `GetDataFromCurrentWindow` allocates after the
bounds computation (lines 2597-2607): zero when the bounds are the sentinel,
otherwise the size of the clipped step range; the emission loop (lines
2620-2740) visits only steps inside the clipped range, so the emitted count
never exceeds this. -/
def windowFetchMaxSamples (tl : List TimelineEntry) (firstID lastID : Nat)
    (resultLabInfo : LabInfo) : Nat :=
  match GetBoundsForDataFetch tl firstID lastID resultLabInfo with
  | none => 0
  | some (f, l) => l + 1 - f

/-! ## Concrete example inputs used by the theorems below -/

/-- A step snapshot carrying the urine electrolytes but no serum sodium. -/
def snapUrineOnly : String → Option Rat := fun s =>
  if s = "UNa" then some 40
  else if s = "UK" then some 20
  else if s = "UCl" then some 30
  else none

/-- A step snapshot carrying the urine electrolytes and a serum sodium, but
no serum chloride or bicarbonate. -/
def snapUrineWithNa : String → Option Rat := fun s =>
  if s = "UNa" then some 40
  else if s = "UK" then some 20
  else if s = "UCl" then some 30
  else if s = "Na" then some 140
  else none

/-- The `UrineAnionGap` entry of the snapshot produced by the derived-value
blocks, when they return normally. -/
def urineAnionGapResult (snap : String → Option Rat) : Option Rat :=
  match derivedUrineAnionGap snap with
  | PyOutcome.ok s => s ("UrineAnionGap")
  | _ => none

/-- A registry knowing only the variable `Cr`. -/
def exampleRegistry : String → Option LabInfo := fun s =>
  if s = "Cr" then some ⟨0, 20, "", 0⟩ else none

/-! ## Theorems -/

/-- C1: for every pair of integer day numbers, `ComputeOutcomeCategory`
returns exactly the category given by the spec's threshold table: 13 for a
negative target day, otherwise the first category of the table whose
threshold bounds `target_day - current_day`, and 13 past the last threshold.
The function is a pure Lean function of its two arguments, so re-running it
trivially yields the same category. -/
theorem computeOutcomeCategory_matches_thresholdTable :
    ∀ currentDay targetDay : Int,
      ComputeOutcomeCategory currentDay targetDay =
        specOutcomeCategory currentDay targetDay := by
  intro c t
  rfl

/-- C4 counterexample: the claim states the categorization returns 8 for
`current_day = 50`, `target_day = 200`; the code computes the gap
`200 - 50 = 150`, which falls in the `≤ 180` bucket, category 7. -/
theorem outcomeCategory_day200_ne_8 :
    ComputeOutcomeCategory 50 200 ≠ 8 := by decide

/-- C4 amended: with `current_day = 50` the categorization returns category
2 for `target_day = 52`, category 7 for `target_day = 200`, and category 13
when no occurrence is tracked (negative target day). -/
theorem outcomeCategory_specScenario_amended :
    ComputeOutcomeCategory 50 52 = 2 ∧
    ComputeOutcomeCategory 50 200 = 7 ∧
    ComputeOutcomeCategory 50 (-1) = 13 := by decide

/-- C2: evaluation of the source's baseline-MELD update at concrete states.
The source compares the current MELD against `self.BaselineCr` instead of
`self.BaselineMELD`, so with tracked baselines Cr = 30 and MELD = 6 a current
MELD of 25 replaces the baseline (the tracked baseline MELD increases from 6
to 25 as the reverse pass walks backward), and with tracked baselines
Cr = 1 and MELD = 20 a current MELD of 10 is not taken as the new baseline;
the rule the claim (and the source's own comment block) states gives 6 and
10 respectively at those states. -/
theorem updateBaselineMELD_comparesAgainstBaselineCr :
    updateBaselineMELD ⟨30, 6⟩ 25 = 25 ∧
    updateBaselineMELD_specRule ⟨30, 6⟩ 25 = 6 ∧
    updateBaselineMELD ⟨1, 20⟩ 10 = 20 ∧
    updateBaselineMELD_specRule ⟨1, 20⟩ 10 = 10 := by decide

/-- C5 counterexample: with declared bounds [1, 10], the decoded value 20
(exactly twice the maximum) and the decoded value -5 (below the minimum) are
both discarded by the code, while the claim's rule stores them clipped. -/
theorem validateLabValue_claim_counterexample :
    validateLabValue 1 10 20 ≠ specValidateLabValue_claim 1 10 20 ∧
    validateLabValue 1 10 (-5) ≠ specValidateLabValue_claim 1 10 (-5) := by
  constructor <;>
  · unfold validateLabValue specValidateLabValue_claim
    norm_num
    exact fun hc => Option.noConfusion hc

/-- C5 amended: a decoded value is discarded as an implausible outlier
exactly when it is negative or at least 2x the descriptor's declared
maximum; every other decoded value (including one between 0 and the declared
minimum) is clipped into the declared bounds and stored. -/
theorem validateLabValue_eq_amendedRule :
    ∀ labMinVal labMaxVal v : Rat,
      validateLabValue labMinVal labMaxVal v =
        specValidateLabValue_amended labMinVal labMaxVal v := by
  intro mn mx v
  unfold validateLabValue specValidateLabValue_amended
  split_ifs with h h1
  · rfl
  · refine congrArg some ?_
    simp only [min_def, max_def, gt_iff_lt]
    split_ifs <;> linarith
  · refine congrArg some ?_
    simp only [min_def, max_def, gt_iff_lt]
    split_ifs <;> linarith

/-- C6: evaluation of the derived urine-anion-gap computation.  On a step
snapshot carrying the urine electrolytes UNa=40, UK=20, UCl=30 but no serum
sodium, the block raises NameError (the local `serumNa` was never bound in
this call); with a serum sodium of 140 also present, the stored result is
`(serumNa + urineK) - urineCl = 130`, not the urine-only value
`(urineNa + urineK) - urineCl = 30` — the computation reads the leftover
serum-sodium local instead of the fetched urine sodium. -/
theorem urineAnionGap_reads_serum_sodium :
    derivedUrineAnionGap snapUrineOnly = PyOutcome.raised ("NameError") ∧
    urineAnionGapResult snapUrineWithNa = some 130 ∧
    urineAnionGapResult snapUrineWithNa ≠ some 30 := by
  have h1 : urineAnionGapResult snapUrineWithNa = some ((140 + 20) - 30 : Rat) := rfl
  refine ⟨rfl, h1.trans (by norm_num), fun hc => ?_⟩
  have h2 := Option.some.inj (h1.symm.trans hc)
  norm_num at h2

/-- C7: no outcome-annotation (`oc`) node ever reaches the category dispatch
of the forward pass — the guard at line 3212 admits only `e` and `d` nodes,
so the `oc` arm of the dispatch (and with it
`ProcessOutcomeNodeForwardImpl`) is unreachable and the outcome booleans are
never written; in particular a single-`oc` record contributes nothing.  The
last conjunct evaluates the unreachable handler itself, which would have
written `DiedInpt = 1` into the snapshot. -/
theorem outcomeNodes_skipped_in_forward_pass :
    (∀ nodes : List TdfNode,
      (nodesReachingForwardDispatch nodes).all
        (fun n => !(n.nodeType == "oc")) = true) ∧
    nodesReachingForwardDispatch [⟨"oc", [], ""⟩] = [] ∧
    ProcessOutcomeNodeForwardImpl (fun a => if a == "DiedInpt" then "T" else "")
      (fun _ => none) ("DiedInpt") = some 1 := by
  refine ⟨?_, rfl, rfl⟩
  intro nodes
  rw [List.all_eq_true]
  intro n hn
  rcases List.mem_filter.mp hn with ⟨-, hadm⟩
  unfold forwardPassAdmitsNode at hadm
  simp only [Bool.or_eq_true, beq_iff_eq] at hadm
  rcases hadm with h | h <;> simp [h]

/-- C8: evaluation of the sample-extraction entry point when the result
variable's name stem is absent from the registry: `ParseSingleVariable`
returns the `(None, None, 0)` triple, and `ParseVariables` then crashes with
TypeError while formatting its failure message (`"..." + None`), so
`GetDataFromCurrentWindow` propagates an exception instead of returning the
zero-sample result. -/
theorem unknownResultVariable_raises_TypeError :
    GetDataFromCurrentWindow_start exampleRegistry ("Cr") ("FutureBogusVar") =
      PyOutcome.raised ("TypeError") ∧
    GetDataFromCurrentWindow_start exampleRegistry ("Cr") ("FutureBogusVar") ≠
      PyOutcome.ok FetchStart.zeroSamples := by
  constructor
  · rfl
  · intro hc
    have h1 : GetDataFromCurrentWindow_start exampleRegistry ("Cr") ("FutureBogusVar") =
        PyOutcome.raised ("TypeError") := rfl
    exact PyOutcome.noConfusion (h1.symm.trans hc)

/-- C9: evaluation of the forward-pass timestamp skeleton.  A record whose
middle `d` entry carries an empty timestamp string makes the compilation hit
`sys.exit(0)` inside `TDF_ParseTimeStamp` — the whole process terminates
instead of skipping the entry; a well-formed record parses normally, and a
malformed non-empty timestamp raises an uncaught ValueError. -/
theorem emptyTimestamp_terminates_process :
    compileTimelineTimestamps
      [⟨"e", ['0', '1', ':', '0', '2', ':', '0', '3'], "A"⟩,
       ⟨"d", [], "L"⟩,
       ⟨"d", ['0', '2', ':', '0', '0', ':', '0', '0'], "L"⟩] =
      PyOutcome.sysExit ∧
    compileTimelineTimestamps
      [⟨"e", ['0', '1', ':', '0', '2', ':', '0', '3'], "A"⟩] =
      PyOutcome.ok [(1, 2, 3)] ∧
    compileTimelineTimestamps [⟨"d", ['x', 'x'], "L"⟩] =
      PyOutcome.raised ("ValueError") := by
  refine ⟨rfl, rfl, rfl⟩

/-! ### Helper lemmas for the timestamp round trip -/

theorem decCharVal_decDigitChar (d : Nat) (hd : d < 10) :
    decCharVal (decDigitChar d) = d := by
  interval_cases d <;> rfl

theorem decDigitChar_isDigit (d : Nat) (hd : d < 10) :
    (decDigitChar d).isDigit = true := by
  interval_cases d <;> rfl

theorem decDigitChar_ne_colon (d : Nat) (hd : d < 10) :
    decDigitChar d ≠ ':' := by
  interval_cases d <;> decide

theorem natDecChars_ne_nil (n : Nat) : natDecChars n ≠ [] := by
  unfold natDecChars
  split
  · exact fun hc => List.noConfusion hc
  · next hn =>
    intro hc
    rcases List.map_eq_nil_iff.mp hc with hrev
    exact (Nat.digits_ne_nil_iff_ne_zero.mpr hn) (List.reverse_eq_nil_iff.mp hrev)

theorem mem_natDecChars (n : Nat) (c : Char) (hc : c ∈ natDecChars n) :
    ∃ d, d < 10 ∧ c = decDigitChar d := by
  unfold natDecChars at hc
  split at hc
  · rcases List.mem_singleton.mp hc with rfl
    exact ⟨0, by norm_num, rfl⟩
  · rcases List.mem_map.mp hc with ⟨d, hd, rfl⟩
    exact ⟨d, Nat.digits_lt_base (by norm_num) (List.mem_reverse.mp hd), rfl⟩

theorem pad2_members (n : Nat) (c : Char) (hc : c ∈ pad2 n) :
    ∃ d, d < 10 ∧ c = decDigitChar d := by
  unfold pad2 at hc
  rcases List.mem_append.mp hc with h | h
  · rcases List.eq_of_mem_replicate h with rfl
    exact ⟨0, by norm_num, rfl⟩
  · exact mem_natDecChars n c h

theorem pad2_ne_nil (n : Nat) : pad2 n ≠ [] := by
  unfold pad2
  intro hc
  rcases List.append_eq_nil.mp hc with ⟨-, h2⟩
  exact natDecChars_ne_nil n h2

theorem colon_not_mem_pad2 (n : Nat) : ':' ∉ pad2 n := by
  intro hc
  rcases pad2_members n ':' hc with ⟨d, hd, hchar⟩
  exact decDigitChar_ne_colon d hd hchar.symm

theorem pad2_all_isDigit (n : Nat) : (pad2 n).all (fun c => c.isDigit) = true := by
  rw [List.all_eq_true]
  intro c hc
  rcases pad2_members n c hc with ⟨d, hd, rfl⟩
  exact decDigitChar_isDigit d hd

theorem foldl_decDigits (ds : List Nat) (hds : ∀ d ∈ ds, d < 10) (a : Nat) :
    List.foldl (fun a c => 10 * a + decCharVal c) a (ds.reverse.map decDigitChar) =
      a * 10 ^ ds.length + Nat.ofDigits 10 ds := by
  induction ds generalizing a with
  | nil => simp [Nat.ofDigits]
  | cons d tl ih =>
    have hd : d < 10 := hds d (List.mem_cons_self d tl)
    have htl : ∀ x ∈ tl, x < 10 := fun x hx => hds x (List.mem_cons_of_mem d hx)
    rw [List.reverse_cons, List.map_append, List.foldl_append, ih htl a]
    simp only [List.map_cons, List.map_nil, List.foldl_cons, List.foldl_nil,
      Nat.ofDigits_cons, decCharVal_decDigitChar d hd, List.length_cons]
    ring

theorem pyIntDigitsVal_natDecChars (n : Nat) :
    pyIntDigitsVal (natDecChars n) = n := by
  unfold pyIntDigitsVal natDecChars
  split
  · next hn => subst hn; rfl
  · rw [foldl_decDigits (Nat.digits 10 n)
      (fun d hd => Nat.digits_lt_base (by norm_num) hd) 0]
    simp [Nat.ofDigits_digits]

theorem pyIntDigitsVal_pad2 (n : Nat) : pyIntDigitsVal (pad2 n) = n := by
  unfold pad2 pyIntDigitsVal
  rw [List.foldl_append]
  have hrep : ∀ k, List.foldl (fun a c => 10 * a + decCharVal c) 0
      (List.replicate k (decDigitChar 0)) = 0 := by
    intro k
    induction k with
    | zero => rfl
    | succ k ih => simpa [List.replicate_succ] using ih
  rw [hrep]
  exact pyIntDigitsVal_natDecChars n

theorem pyIntOfChars_pad2 (n : Nat) : pyIntOfChars (pad2 n) = some n := by
  unfold pyIntOfChars
  rw [if_pos ⟨pad2_ne_nil n, pad2_all_isDigit n⟩, pyIntDigitsVal_pad2]

theorem splitOnChar_cons (sep c : Char) (rest : List Char) :
    splitOnChar sep (c :: rest) =
      match splitOnChar sep rest with
      | [] => [[]]
      | w :: ws => if c = sep then [] :: w :: ws else (c :: w) :: ws := rfl

theorem splitOnChar_ne_nil (sep : Char) (l : List Char) :
    splitOnChar sep l ≠ [] := by
  induction l with
  | nil => exact fun hc => List.noConfusion hc
  | cons c rest ih =>
    unfold splitOnChar
    split
    · exact fun hc => List.noConfusion hc
    · split <;> exact fun hc => List.noConfusion hc

theorem splitOnChar_no_sep (sep : Char) (l : List Char) (hl : sep ∉ l) :
    splitOnChar sep l = [l] := by
  induction l with
  | nil => rfl
  | cons c rest ih =>
    have hc : c ≠ sep := fun h => hl (h ▸ List.mem_cons_self c rest)
    have hrest : sep ∉ rest := fun h => hl (List.mem_cons_of_mem c h)
    rw [splitOnChar_cons, ih hrest]
    simp [hc]

theorem splitOnChar_append (sep : Char) (xs ys : List Char) (hxs : sep ∉ xs) :
    splitOnChar sep (xs ++ sep :: ys) = xs :: splitOnChar sep ys := by
  induction xs with
  | nil =>
    rw [List.nil_append, splitOnChar_cons]
    rcases hw : splitOnChar sep ys with - | ⟨w, ws⟩
    · exact absurd hw (splitOnChar_ne_nil sep ys)
    · simp
  | cons c xs ih =>
    have hc : c ≠ sep := fun h => hxs (h ▸ List.mem_cons_self c xs)
    have hxs2 : sep ∉ xs := fun h => hxs (List.mem_cons_of_mem c h)
    rw [List.cons_append, splitOnChar_cons, ih hxs2]
    simp [hc]

/-- C10: timestamp round trip — for every triple of non-negative integers,
formatting with `TDF_MakeTimeStamp` and parsing the result with
`TDF_ParseTimeStamp` returns exactly the original days/hours/minutes
triple. -/
theorem timestamp_roundTrip :
    ∀ days hours minutes : Nat,
      TDF_ParseTimeStamp (TDF_MakeTimeStamp days hours minutes) =
        PyOutcome.ok (days, hours, minutes) := by
  intro d h m
  have hne : TDF_MakeTimeStamp d h m ≠ [] := by
    unfold TDF_MakeTimeStamp
    intro hc
    rcases List.append_eq_nil.mp hc with ⟨-, h2⟩
    exact List.noConfusion h2
  have hform : TDF_MakeTimeStamp d h m = pad2 d ++ ':' :: (pad2 h ++ ':' :: pad2 m) := by
    unfold TDF_MakeTimeStamp
    simp [List.append_assoc]
  have hsplit : splitOnColon (TDF_MakeTimeStamp d h m) = [pad2 d, pad2 h, pad2 m] := by
    unfold splitOnColon
    rw [hform,
      splitOnChar_append ':' (pad2 d) _ (colon_not_mem_pad2 d),
      splitOnChar_append ':' (pad2 h) _ (colon_not_mem_pad2 h),
      splitOnChar_no_sep ':' (pad2 m) (colon_not_mem_pad2 m)]
  unfold TDF_ParseTimeStamp
  rw [if_neg hne, hsplit]
  simp only [pyIntOfChars_pad2]

/-! ### Helper lemmas for the look-ahead clipping -/

theorem dayAt_eq_getElem (tl : List TimelineEntry) (i : Nat) (hi : i < tl.length) :
    dayAt tl i = (tl.get ⟨i, hi⟩).TimeDays := by
  unfold dayAt
  rw [List.getElem?_eq_getElem hi]
  simp

theorem dayAt_mono (tl : List TimelineEntry)
    (hmono : tl.Pairwise (fun a b => a.TimeDays ≤ b.TimeDays))
    (i j : Nat) (hij : i ≤ j) (hj : j < tl.length) : dayAt tl i ≤ dayAt tl j := by
  rcases eq_or_lt_of_le hij with rfl | hlt
  · exact le_refl _
  · have hi : i < tl.length := lt_trans hlt hj
    have h := (List.pairwise_iff_get.mp hmono) ⟨i, hi⟩ ⟨j, hj⟩ hlt
    rw [dayAt_eq_getElem tl i hi, dayAt_eq_getElem tl j hj]
    exact h

theorem carriesAt_lt_length (tl : List TimelineEntry) (name : String) (j : Nat)
    (hc : carriesAt tl name j = true) : j < tl.length := by
  unfold carriesAt at hc
  rcases hj : tl[j]? with - | e
  · rw [hj] at hc; exact Bool.noConfusion hc
  · rcases List.getElem?_eq_some.mp hj with ⟨hw, -⟩
    exact hw

theorem clipLastID_spec (tl : List TimelineEntry) (fd N : Int) (firstID : Nat) :
    ∀ i l, clipLastID tl fd N firstID i = some l →
      firstID ≤ l ∧ l ≤ i ∧ dayAt tl l + N ≤ fd := by
  intro i
  induction i with
  | zero =>
    intro l hl
    unfold clipLastID at hl
    by_cases h1 : 0 < firstID
    · rw [if_pos h1] at hl
      exact Option.noConfusion hl
    · rw [if_neg h1] at hl
      by_cases h2 : fd ≥ dayAt tl 0 + N
      · rw [if_pos h2] at hl
        rcases Option.some.inj hl with rfl
        exact ⟨by omega, le_refl 0, by linarith⟩
      · rw [if_neg h2] at hl
        exact Option.noConfusion hl
  | succ i ih =>
    intro l hl
    unfold clipLastID at hl
    by_cases h1 : i + 1 < firstID
    · rw [if_pos h1] at hl
      exact Option.noConfusion hl
    · rw [if_neg h1] at hl
      by_cases h2 : fd ≥ dayAt tl (i + 1) + N
      · rw [if_pos h2] at hl
        rcases Option.some.inj hl with rfl
        exact ⟨by omega, le_refl _, by linarith⟩
      · rw [if_neg h2] at hl
        rcases ih l hl with ⟨ha, hb, hc⟩
        exact ⟨ha, Nat.le_succ_of_le hb, hc⟩

theorem findFutureDayNum_eq_zero_version (tl : List TimelineEntry) (name : String)
    (firstID : Nat) :
    ∀ i, findFutureDayNum tl name firstID i = -1 ∨
      findFutureDayNum tl name firstID i = findFutureDayNum tl name 0 i := by
  intro i
  induction i with
  | zero =>
    unfold findFutureDayNum
    rw [if_neg (by omega : ¬ (0 : Nat) < 0)]
    by_cases h1 : 0 < firstID
    · left; rw [if_pos h1]
    · right; rw [if_neg h1]
  | succ i ih =>
    unfold findFutureDayNum
    rw [if_neg (by omega : ¬ i + 1 < 0)]
    by_cases h1 : i + 1 < firstID
    · left; rw [if_pos h1]
    · rw [if_neg h1]
      by_cases hcar : carriesAt tl name (i + 1) = true
      · rw [if_pos hcar, if_pos hcar]
        right; rfl
      · rw [if_neg hcar, if_neg hcar]
        exact ih

theorem findFutureDayNum_ge_dayAt (tl : List TimelineEntry) (name : String)
    (hmono : tl.Pairwise (fun a b => a.TimeDays ≤ b.TimeDays)) :
    ∀ i, i < tl.length → ∀ j, j ≤ i → carriesAt tl name j = true →
      dayAt tl j ≤ findFutureDayNum tl name 0 i := by
  intro i
  induction i with
  | zero =>
    intro hi j hj hcar
    interval_cases j
    unfold findFutureDayNum
    rw [if_neg (by omega : ¬ (0 : Nat) < 0), if_pos hcar]
  | succ i ih =>
    intro hi j hj hcar
    unfold findFutureDayNum
    rw [if_neg (by omega : ¬ i + 1 < 0)]
    by_cases hc1 : carriesAt tl name (i + 1) = true
    · rw [if_pos hc1]
      exact dayAt_mono tl hmono j (i + 1) hj hi
    · rw [if_neg hc1]
      have hj2 : j ≤ i := by
        rcases Nat.lt_or_ge j (i + 1) with h | h
        · omega
        · exfalso
          have hji : j = i + 1 := by omega
          exact hc1 (hji ▸ hcar)
      exact ih (by omega) j hj2 hcar

theorem findFutureDayNum_none (tl : List TimelineEntry) (name : String) (firstID : Nat)
    (hnone : ∀ j, carriesAt tl name j = false) :
    ∀ i, findFutureDayNum tl name firstID i = -1 := by
  intro i
  induction i with
  | zero =>
    unfold findFutureDayNum
    simp [hnone 0]
  | succ i ih =>
    unfold findFutureDayNum
    simp [hnone (i + 1), ih]

/-- C3: look-ahead safety of sample extraction.  For a result variable
predicting a future signal over a chronologically ordered compiled timeline:
(1) whenever the bounds computation returns a usable range, every step of
that range (the only steps the emission loop of `GetDataFromCurrentWindow`
visits) has a day at least `numFutureDaysNeeded` days before the day of the
latest step in the whole timeline carrying the signal; (2) that day really
is the latest: it bounds the day of every signal-carrying step; (3) when no
step in the timeline carries the signal, the bounds computation returns the
sentinel and the window fetch allocates and returns zero samples rather
than an error. -/
theorem getBounds_lookahead_safety
    (tl : List TimelineEntry) (firstID lastID : Nat) (info : LabInfo)
    (hname : info.FuturePredictedValue ≠ "")
    (hlast : lastID < tl.length)
    (hmono : tl.Pairwise (fun a b => a.TimeDays ≤ b.TimeDays)) :
    (∀ f l, GetBoundsForDataFetch tl firstID lastID info = some (f, l) →
        ∀ i, f ≤ i → i ≤ l →
          dayAt tl i + info.numFutureDaysNeeded ≤
            latestCarryDay tl info.FuturePredictedValue) ∧
    (∀ j, carriesAt tl info.FuturePredictedValue j = true →
        dayAt tl j ≤ latestCarryDay tl info.FuturePredictedValue) ∧
    ((∀ e ∈ tl, info.FuturePredictedValue ∉ e.dataNames) →
        GetBoundsForDataFetch tl firstID lastID info = none ∧
        windowFetchMaxSamples tl firstID lastID info = 0) := by
  refine ⟨?_, ?_, ?_⟩
  · intro f l hres i hfi hil
    unfold GetBoundsForDataFetch at hres
    rw [if_neg hname] at hres
    set fd := findFutureDayNum tl info.FuturePredictedValue firstID (tl.length - 1)
      with hfd
    by_cases hneg : fd < 0
    · rw [if_pos hneg] at hres
      exact Option.noConfusion hres
    · rw [if_neg hneg] at hres
      rcases hclip : clipLastID tl fd info.numFutureDaysNeeded firstID lastID
        with - | l'
      · rw [hclip] at hres
        exact Option.noConfusion hres
      · rw [hclip] at hres
        have hpair := Option.some.inj hres
        injection hpair with hf hl
        subst hf
        subst hl
        rcases clipLastID_spec tl fd info.numFutureDaysNeeded firstID lastID l' hclip
          with ⟨h1, h2, h3⟩
        have hllen : l' < tl.length := lt_of_le_of_lt h2 hlast
        have histep : dayAt tl i ≤ dayAt tl l' := dayAt_mono tl hmono i l' hil hllen
        have hfdlatest : fd = latestCarryDay tl info.FuturePredictedValue := by
          rcases findFutureDayNum_eq_zero_version tl info.FuturePredictedValue
            firstID (tl.length - 1) with hcase | hcase
          · rw [hfd, hcase] at hneg
            exact absurd (by norm_num) hneg
          · rw [hfd, hcase]
            rfl
        rw [← hfdlatest]
        linarith
  · intro j hj
    have hjlen : j < tl.length := carriesAt_lt_length tl _ j hj
    have hlen1 : tl.length - 1 < tl.length := by omega
    exact findFutureDayNum_ge_dayAt tl info.FuturePredictedValue hmono
      (tl.length - 1) hlen1 j (by omega) hj
  · intro hnone
    have hcar : ∀ j, carriesAt tl info.FuturePredictedValue j = false := by
      intro j
      unfold carriesAt
      rcases hj : tl[j]? with - | e
      · simp [hj]
      · simp only [hj, decide_eq_false_iff_not]
        exact hnone e (List.getElem?_mem hj)
    have hb : GetBoundsForDataFetch tl firstID lastID info = none := by
      unfold GetBoundsForDataFetch
      rw [if_neg hname,
        findFutureDayNum_none tl info.FuturePredictedValue firstID hcar (tl.length - 1)]
      norm_num
    refine ⟨hb, ?_⟩
    unfold windowFetchMaxSamples
    rw [hb]

/-- Witness for C3 at a concrete timeline: two steps on days 100 and 110,
the later one carrying the future signal, with 5 days of forward knowledge
needed; the bounds computation clips the window to the day-100 step, which
lies at least 5 days before day 110. -/
theorem getBounds_lookahead_safety_witness :
    dayAt [⟨100, ["Cr"]⟩, ⟨110, ["Cr", "Future_Death"]⟩] 0 + (5 : Int) ≤
      latestCarryDay [⟨100, ["Cr"]⟩, ⟨110, ["Cr", "Future_Death"]⟩]
        ("Future_Death") := by
  have h := (getBounds_lookahead_safety
      [⟨100, ["Cr"]⟩, ⟨110, ["Cr", "Future_Death"]⟩] 0 1 ⟨0, 20, "Future_Death", 5⟩
      (by decide) (by decide) (by decide)).1 0 0 (by decide) 0 (le_refl 0) (le_refl 0)
  exact h
